import Mathlib

/-!
Shallow embedding of the FAIRagro basic middleware harvesting core
(`middleware/metadata_scraper/__init__.py`, `middleware/http_session/__init__.py`,
`middleware/metadata_scraper/metadata_extractor/*.py`,
`middleware/metadata_scraper/sitemap_parser/sitemap_parser.py`,
`middleware/utils/registering_abc.py`).

External effects (the network, the filesystem, character-set decoding, the
JSON parser of the standard library and the third-party `extruct` extractor)
are modelled as explicit oracle functions that are passed in as parameters;
the repository's own control flow (exception routing, report construction,
fan-out aggregation) is translated literally.
-/

namespace Middleware

/-- The Python exception kinds relevant to the harvesting core.
`fetchArgument`, `fetchTechnical`, `fetchResponse` and `fetchDecode` embed
`HttpSessionArgumentError`, `HttpSessionTechnicalError`,
`HttpSessionResponseError` and `HttpSessionDecodeError`; `sitemapParse`
embeds `SitemapParseError`, `metadataParse` embeds `MetadataParseError`,
and `other` stands for every exception outside the declared taxonomy
(`ValueError`, programming errors, resource exhaustion, ...). -/
inductive PyExc where
  | fetchArgument
  | fetchTechnical
  | fetchResponse
  | fetchDecode
  | sitemapParse
  | metadataParse
  | other
  deriving DecidableEq, Repr

/-- Embeds the Python class hierarchy of `http_session/__init__.py`:
`HttpSessionArgumentError`, `HttpSessionTechnicalError`,
`HttpSessionResponseError` and `HttpSessionDecodeError` are exactly the
subclasses of the common base `HttpSessionFetchError`. -/
def isHttpSessionFetchError : PyExc → Bool
  | .fetchArgument => true
  | .fetchTechnical => true
  | .fetchResponse => true
  | .fetchDecode => true
  | .sitemapParse => false
  | .metadataParse => false
  | .other => false

/-- A Python value as far as the extractors care: either a JSON
object/scalar (kept opaque, tagged by a string) or a JSON list.
This is enough to embed the `isinstance(metadata, list)` tests. -/
inductive PyVal where
  | dict : String → PyVal
  | list : List PyVal → PyVal

/-- What happens when `aiohttp`'s `self.get` is awaited for a URL:
`status` is a response object handed back with its HTTP status code and
body bytes (already read by `response.read()`); `respError` is a raised
`aiohttp.ClientResponseError` carrying the status — the session is
constructed with `raise_for_status=True` (`HttpSession.__init__`,
`http_session/__init__.py` line 81), which raises it inside `self.get`
for every status ≥ 400, so on the real session a `status` event with
code ≥ 400 never occurs (see `raiseForStatusNet`); `netFail` is any
other raised `ClientError`/`asyncio.TimeoutError`. -/
inductive NetEvent where
  | status : Nat → List Nat → NetEvent
  | respError : Nat → NetEvent
  | netFail : NetEvent

/-- A network oracle realizable for the session the program actually
builds (`raise_for_status=True`): `self.get` never hands back a response
object with status ≥ 400 — `aiohttp` raises `ClientResponseError`
(`NetEvent.respError`) instead. The repository's unit tests mock
`HttpSession.get` with bare response objects and so escape this
constraint. -/
def raiseForStatusNet (net : String → NetEvent) : Prop :=
  ∀ url code body, net url = NetEvent.status code body → code < 400

/-- Scheme characters allowed by `urllib.parse.urlparse`: the first
character must be a letter, the rest letters, digits, `+`, `-` or `.`. -/
def isSchemeChar (first : Bool) (c : Char) : Bool :=
  if first then c.isAlpha else c.isAlpha || c.isDigit || c == '+' || c == '-' || c == '.'

/-- The characters before the first `:`, or `none` when there is no `:`. -/
def takeUntilColon : List Char → Option (List Char)
  | [] => none
  | c :: cs =>
    if c = ':' then some []
    else (takeUntilColon cs).map (fun l => c :: l)

/-- Embeds the `parsed_url.scheme` field of `urllib.parse.urlparse`:
the lower-cased text before the first `:`, provided the URL has a `:`
and that text is a wellformed scheme; otherwise the empty string. -/
def urlScheme (url : String) : String :=
  match takeUntilColon url.toList with
  | none => ""
  | some [] => ""
  | some (c0 :: rest) =>
    if isSchemeChar true c0 && rest.all (isSchemeChar false) then
      String.mk ((c0 :: rest).map Char.toLower)
    else ""

/-- Embeds the final decoding step of `get_decoded_url`: `chardet.detect`
followed by `bytes.decode`, whose whole `try` block maps any exception to
`HttpSessionDecodeError`. The oracle `decode` returns `none` when that
block raises. -/
def decodeStep (decode : List Nat → Option String) (body : List Nat) : Except PyExc String :=
  match decode body with
  | some s => .ok s
  | none => .error .fetchDecode

/-- Embeds `HttpSession.get_decoded_url` (`http_session/__init__.py`).
`net` is the oracle for `self.get(url)`, `fileRead` the oracle for
`aiofiles.open(...).read()` (`none` when that raises), `decode` the
decoding oracle. A raised `ClientResponseError` (`NetEvent.respError`,
produced by `raise_for_status=True` for every status ≥ 400) is a
`ClientError` and so lands in the `except (ClientError,
asyncio.TimeoutError)` handler, which raises
`HttpSessionTechnicalError` — before the explicit 4xx/5xx status checks,
which on a `raiseForStatusNet` network are dead code (they are kept here
as the literal translation of the source, and are reachable in the
repository's unit tests, which mock `self.get`). -/
def get_decoded_url (net : String → NetEvent) (fileRead : String → Option (List Nat))
    (decode : List Nat → Option String) (url : String) : Except PyExc String :=
  let scheme := urlScheme url
  if scheme = "http" ∨ scheme = "https" then
    match net url with
    | .netFail => .error .fetchTechnical
    | .respError _ => .error .fetchTechnical
    | .status code body =>
      if 500 ≤ code ∧ code < 600 then .error .fetchTechnical
      else if 400 ≤ code ∧ code < 500 then .error .fetchResponse
      else decodeStep decode body
  else if scheme = "file" then
    match fileRead url with
    | some body => decodeStep decode body
    | none => .error .fetchResponse
  else .error .fetchArgument

/-- `true` exactly on the `HttpSessionResponseError` outcome of a fetch. -/
def isResponseErrorOutcome : Except PyExc String → Bool
  | .error .fetchResponse => true
  | _ => false

/-- The outcome of awaiting `session.get_decoded_url(url)` inside one
fan-out task, seen from the scraper: either the decoded content, or a
raised exception. -/
inductive FetchResult where
  | ok : String → FetchResult
  | exc : PyExc → FetchResult
  deriving DecidableEq, Repr

/-- `get_decoded_url` packaged as the `String → FetchResult` oracle that
`scrape_repo` and the fan-out tasks consume. -/
def fetchOfWorld (net : String → NetEvent) (fileRead : String → Option (List Nat))
    (decode : List Nat → Option String) (url : String) : FetchResult :=
  match get_decoded_url net fileRead decode url with
  | .ok s => .ok s
  | .error e => .exc e

/-- A harvest report dictionary (`valid_entries`, `failed_entries`,
`skipped`). `failed_entries` is an integer because the code computes it
as a Python subtraction `len(datasets) - len(result)`. -/
structure Report where
  valid_entries : Nat
  failed_entries : Int
  skipped : Bool
  deriving DecidableEq, Repr

/-- Embeds the module-level constant `SKIP_RDI_REPORT` of
`metadata_scraper/__init__.py`. -/
def SKIP_RDI_REPORT : Report :=
  { valid_entries := 0, failed_entries := 0, skipped := true }

/-- The behaviour of `extractor.get_metadata_or_log_error(content, url)`
(`metadata_extractor/metadata_extractor.py`): it runs the concrete
extractor's `metadata` and absorbs every exception into `None`, so its
model is an oracle from content and URL to `Option (List PyVal)`. -/
def ExtractorFun : Type := String → String → Option (List PyVal)

/-- Embeds the coroutine `_extract_metadata(url, session, extractor)`
(`metadata_scraper/__init__.py` lines 54-92): fetch the URL, then extract;
`HttpSessionResponseError` and `HttpSessionDecodeError` from the fetch are
caught and turned into `None`, every other raised exception leaves the
coroutine as an exception (`Except.error`). -/
def extract_metadata (fetch : String → FetchResult) (ext : ExtractorFun)
    (url : String) : Except PyExc (Option (List PyVal)) :=
  match fetch url with
  | .ok content => .ok (ext content url)
  | .exc e =>
    if e = .fetchResponse ∨ e = .fetchDecode then .ok none
    else .error e

/-- `true` exactly when the embedded coroutine raised (the value
`asyncio.gather(..., return_exceptions=True)` stores is an `Exception`). -/
def exceptIsError : Except PyExc (Option (List PyVal)) → Bool
  | .error _ => true
  | .ok _ => false

/-- The flattening step of `_extract_many_metadata`: keep the task results
that are lists (`isinstance(m, list)`) and chain them. -/
def harvestRecords (fetch : String → FetchResult) (ext : ExtractorFun)
    (urls : List String) : List PyVal :=
  ((urls.map (extract_metadata fetch ext)).filterMap (fun d =>
    match d with
    | .ok (some l) => some l
    | _ => none)).flatten

/-- Embeds `_extract_many_metadata(urls, session, extractor)`
(`metadata_scraper/__init__.py` lines 95-137): gather all tasks with
`return_exceptions=True`; if any task raised, return
`(None, SKIP_RDI_REPORT)`; otherwise flatten the list-valued results and
report `valid_entries = len(result)`,
`failed_entries = len(datasets) - len(result)`, `skipped = False`. -/
def extract_many_metadata (fetch : String → FetchResult) (ext : ExtractorFun)
    (urls : List String) : Option (List PyVal) × Report :=
  let datasets := urls.map (extract_metadata fetch ext)
  if datasets.any exceptIsError then
    (none, SKIP_RDI_REPORT)
  else
    let result := harvestRecords fetch ext urls
    (some result,
      { valid_entries := result.length,
        failed_entries := (datasets.length : Int) - (result.length : Int),
        skipped := false })

/-- The behaviour of a constructed sitemap parser
(`sitemap_parser/sitemap_parser.py`): the `has_metadata` flag, the
`metadata` property (which may raise, e.g. `SitemapParseError` on empty
or unparsable content) and the `datasets` generator. -/
structure Parser where
  has_metadata : Bool
  metadata : Except PyExc (List PyVal)
  datasets : List String

/-- The exception kinds caught by the `try`/`except` of `scrape_repo`:
`HttpSessionFetchError` (and so all its subclasses), `SitemapParseError`
and `MetadataParseError`. -/
def caughtByScrapeRepo (e : PyExc) : Bool :=
  isHttpSessionFetchError e || e = .sitemapParse || e = .metadataParse

/-- The dynamically-typed return value of `scrape_repo`: the annotated
shape is the pair `(records, report)`, but the `has_metadata` branch
returns `parser.metadata` — a bare list. -/
inductive ScrapeReturn where
  | pair : Option (List PyVal) → Report → ScrapeReturn
  | bare : List PyVal → ScrapeReturn

/-- `true` exactly when a `scrape_repo` return value has the annotated
`Tuple[Optional[List[Dict]], Dict]` shape that the caller
`metadata, report = await scrape_repo(...)` unpacks. -/
def isPairReturn : ScrapeReturn → Bool
  | .pair _ _ => true
  | .bare _ => false

/-- Embeds `scrape_repo(config, default_session_config)`
(`metadata_scraper/__init__.py` lines 140-189), instrumented with the
list of dataset URLs that are fetched in the fan-out phase (second
component). `fetch` models `session.get_decoded_url`, `mkParser` models
`SitemapParser.create_instance(config.sitemap, sitemap_content)`,
`extractorId` models `config.metadata` (`none` when falsy), `mkExtractor`
models `MetadataExtractor.create_instance(config.metadata)`.
Exceptions listed in the `except` clause yield `(None, SKIP_RDI_REPORT)`;
every other exception propagates (`Except.error`). -/
def scrape_repoT (fetch : String → FetchResult)
    (mkParser : String → Except PyExc Parser)
    (extractorId : Option String)
    (mkExtractor : String → Except PyExc ExtractorFun)
    (indexUrl : String) : Except PyExc (ScrapeReturn × List String) :=
  match fetch indexUrl with
  | .exc e =>
    if caughtByScrapeRepo e then .ok (.pair none SKIP_RDI_REPORT, []) else .error e
  | .ok content =>
    match mkParser content with
    | .error e =>
      if caughtByScrapeRepo e then .ok (.pair none SKIP_RDI_REPORT, []) else .error e
    | .ok parser =>
      if parser.has_metadata then
        match parser.metadata with
        | .error e =>
          if caughtByScrapeRepo e then .ok (.pair none SKIP_RDI_REPORT, []) else .error e
        | .ok records => .ok (.bare records, [])
      else
        let urls := parser.datasets
        match extractorId with
        | none => .ok (.pair none SKIP_RDI_REPORT, [])
        | some eid =>
          match mkExtractor eid with
          | .error e =>
            if caughtByScrapeRepo e then .ok (.pair none SKIP_RDI_REPORT, []) else .error e
          | .ok ext =>
            let r := extract_many_metadata fetch ext urls
            .ok (.pair r.1 r.2, urls)

/-- `scrape_repo` proper: the instrumented model with the fetch trace
projected away. -/
def scrape_repo (fetch : String → FetchResult)
    (mkParser : String → Except PyExc Parser)
    (extractorId : Option String)
    (mkExtractor : String → Except PyExc ExtractorFun)
    (indexUrl : String) : Except PyExc ScrapeReturn :=
  (scrape_repoT fetch mkParser extractorId mkExtractor indexUrl).map Prod.fst

/-- Embeds `MetadataExtractorJsonld.metadata(content, url)`
(`metadata_extractor/metadata_extractor_jsonld.py`): empty content raises
`MetadataParseError`; then `json.loads` (oracle `jsonLoads`, `none` when
it raises `JSONDecodeError`, which is re-raised as `MetadataParseError`);
a non-list result is wrapped into a one-element list. -/
def jsonldMetadata (jsonLoads : String → Option PyVal) (content : String) :
    Except PyExc (List PyVal) :=
  if content = "" then .error .metadataParse
  else
    match jsonLoads content with
    | none => .error .metadataParse
    | some (.list xs) => .ok xs
    | some v => .ok [v]

/-- Embeds `MetadataExtractorEmbeddedJsonld.metadata(content, url)`
(`metadata_extractor/embedded_jsonld.py`): `extruct.extract` (oracle
`extract`, returning the `json-ld` entry, with `Except.error` when the
library raises — in particular the underlying HTML parser rejects an
empty document); any exception from `extract` is re-raised as
`MetadataParseError`. The preceding `get_base_url` call never raises and
only feeds `extract`, so it is folded into the oracle. -/
def embeddedJsonldMetadata (extract : String → Except String (List PyVal))
    (content : String) (url : String) : Except PyExc (List PyVal) :=
  let _base_url := url
  match extract content with
  | .error _ => .error .metadataParse
  | .ok mds => .ok mds

/-- Modelled from the spec: the third-party `extruct` library (backed by
`lxml`) is not part of this repository; per the repository's own comment
("we treat empty content as an error because to be consistent with the
extruct library") its `extract` raises on an empty document. Nonempty
behaviour is irrelevant to the claims and modelled as an empty result. -/
def extructExtract (content : String) : Except String (List PyVal) :=
  if content = "" then .error "Document is empty" else .ok []

/-- Embeds the `SitemapParser.metadata` property
(`sitemap_parser/sitemap_parser.py` lines 41-59): empty content raises
`SitemapParseError`; otherwise `get_metadata()` runs (oracle, may raise)
and a non-list result is wrapped into a one-element list. -/
def sitemapParserMetadata (get_metadata : Except PyExc PyVal) (content : String) :
    Except PyExc (List PyVal) :=
  if content = "" then .error .sitemapParse
  else
    match get_metadata with
    | .error e => .error e
    | .ok (.list xs) => .ok xs
    | .ok v => .ok [v]

/-- A registrable Python class, as far as `create_instance` cares: its
name and whether its `__init__` has a required parameter besides `self`
(in which case the zero-argument call `implementation_class()` raises
`TypeError`). -/
structure PyClass where
  name : String
  needsCtorArg : Bool
  deriving DecidableEq, Repr

/-- Every `SitemapParser` subclass: `SitemapParser.__init__(self, content)`
requires `content`, so the zero-argument instantiation raises `TypeError`. -/
def sitemapParserXmlClass : PyClass :=
  { name := "SitemapParserXml", needsCtorArg := true }

/-- `MetadataExtractorJsonld`: no `__init__` of its own beyond the
abstract base, so the zero-argument instantiation succeeds. -/
def metadataExtractorJsonldClass : PyClass :=
  { name := "MetadataExtractorJsonld", needsCtorArg := false }

/-- The shared lookup table `RegisteringABC._implementations`
(`utils/registering_abc.py`): one dictionary at the base class, keyed by
identifier only, holding the registered implementation class. Modelled as
an association list where the most recent assignment shadows older ones. -/
def Registry : Type := List (String × PyClass)

/-- Dictionary lookup `RegisteringABC._implementations.get(identifier)`. -/
def registryGet (reg : Registry) (identifier : String) : Option PyClass :=
  (List.find? (fun p => p.1 == identifier) reg).map (fun p => p.2)

/-- Embeds `RegisteringABC.register_implementation` called on class `cls`
with `identifier`: the assignment
`RegisteringABC._implementations[identifier] = cls` on the single shared
dictionary — the calling class only contributes the stored value. -/
def register_implementation (cls : PyClass) (identifier : String) (reg : Registry) :
    Registry :=
  (identifier, cls) :: reg

/-- Embeds `RegisteringABC.create_instance` called on class
`callerFamily`: looks `identifier` up in the single shared dictionary
(`callerFamily` is not consulted) and executes `implementation_class()`.
The instantiation yields a fresh instance (modelled by the class name it
is an instance of) when the constructor needs no argument, and raises
`TypeError` when it has a required parameter; an unregistered identifier
raises `ValueError`. Both `TypeError` and `ValueError` are outside the
fetch/parse taxonomy, hence `PyExc.other`. -/
def create_instance (callerFamily : String) (reg : Registry) (identifier : String) :
    Except PyExc String :=
  let _cls := callerFamily
  match registryGet reg identifier with
  | some implementation_class =>
    if implementation_class.needsCtorArg then .error .other
    else .ok implementation_class.name
  | none => .error .other

/-! Concrete worlds used to instantiate the general theorems. -/

/-- A network on which every request is answered with HTTP 503:
`raise_for_status=True` surfaces it as a raised `ClientResponseError`. -/
def netAll503 : String → NetEvent := fun _ => NetEvent.respError 503

/-- A network on which every request is answered with HTTP 404:
`raise_for_status=True` surfaces it as a raised `ClientResponseError`. -/
def netRaise404 : String → NetEvent := fun _ => NetEvent.respError 404

/-- The world of the unit test `test_http_4xx_raises_response_error`:
`HttpSession.get` is mocked to hand back a bare response object with
status 404, bypassing `raise_for_status` (unrealizable on the real
session, where it would violate `raiseForStatusNet`). -/
def mockNet404 : String → NetEvent := fun _ => NetEvent.status 404 []

/-- A network where the server of address `u2` answers HTTP 404
(surfaced as a raised `ClientResponseError` by `raise_for_status=True`)
and every other address answers 200. -/
def netOnly404 : String → NetEvent := fun u =>
  if u = "http://h/u2" then NetEvent.respError 404
  else NetEvent.status 200 [104]

/-- A network that is never consulted (file-scheme harvests). -/
def netNone : String → NetEvent := fun _ => NetEvent.netFail

/-- A filesystem with no readable files. -/
def noFile : String → Option (List Nat) := fun _ => none

/-- A filesystem on which exactly `file:///data/u2` is unreadable. -/
def fileOneMissing : String → Option (List Nat) := fun u =>
  if u = "file:///data/u2" then none else some [104]

/-- A decoder that accepts everything. -/
def decodeAll : List Nat → Option String := fun _ => some ""

/-- A decoder mapping every body to the content `doc`. -/
def decodeDoc : List Nat → Option String := fun _ => some "doc"

/-- The per-dataset fetch oracle of a three-file harvest with one
unreadable file (a realizable source of `HttpSessionResponseError`). -/
def fetchFiles : String → FetchResult := fetchOfWorld netNone fileOneMissing decodeDoc

/-- The per-dataset fetch oracle of a three-address harvest whose `u2`
answers HTTP 404 on the real (`raise_for_status=True`) session. -/
def fetch404World : String → FetchResult := fetchOfWorld netOnly404 noFile decodeDoc

/-- A per-dataset fetch oracle on which every URL downloads, the content
being derived from the URL. -/
def fetchAlwaysOk : String → FetchResult := fun u => FetchResult.ok u

/-- A per-dataset fetch oracle on which exactly the URL `u2` fails with
`HttpSessionResponseError` (realizable e.g. as an unreadable `file:` URL;
on the real session HTTP 4xx answers raise `HttpSessionTechnicalError`
instead, because of `raise_for_status=True`). -/
def fetchRespOne : String → FetchResult := fun u =>
  if u = "u2" then FetchResult.exc PyExc.fetchResponse
  else FetchResult.ok ("content:" ++ u)

/-- A per-dataset fetch oracle on which exactly the URL `u2` fails with an
exception outside the declared taxonomy (e.g. `MemoryError`). -/
def fetchCrashOne : String → FetchResult := fun u =>
  if u = "u2" then FetchResult.exc PyExc.other
  else FetchResult.ok ("content:" ++ u)

/-- An index fetch oracle on which every URL downloads to a fixed sitemap. -/
def fetchIdxOk : String → FetchResult := fun _ => FetchResult.ok "sitemapcontent"

/-- An extractor behaviour yielding exactly one record per content. -/
def extOneRecord : ExtractorFun := fun content _ => some [PyVal.dict content]

/-- An extractor behaviour yielding two records per content. -/
def extTwoRecords : ExtractorFun := fun content _ =>
  some [PyVal.dict content, PyVal.dict content]

/-- A parser whose sitemap holds no embedded metadata and one dataset URL. -/
def parserPlain : Parser :=
  { has_metadata := false, metadata := Except.error PyExc.sitemapParse,
    datasets := ["d1"] }

/-- `create_instance` behaviour always producing `parserPlain`. -/
def mkParserPlain : String → Except PyExc Parser := fun _ => Except.ok parserPlain

/-- A parser that reports `has_metadata` and carries three records. -/
def parserWithMeta : Parser :=
  { has_metadata := true,
    metadata := Except.ok [PyVal.dict "r1", PyVal.dict "r2", PyVal.dict "r3"],
    datasets := [] }

/-- `create_instance` behaviour always producing `parserWithMeta`. -/
def mkParserMeta : String → Except PyExc Parser := fun _ => Except.ok parserWithMeta

/-- A parser enumerating the two dataset URLs `u1`, `u2`. -/
def parserTwoUrls : Parser :=
  { has_metadata := false, metadata := Except.error PyExc.sitemapParse,
    datasets := ["u1", "u2"] }

/-- `create_instance` behaviour always producing `parserTwoUrls`. -/
def mkParserTwoUrls : String → Except PyExc Parser := fun _ => Except.ok parserTwoUrls

/-- `SitemapParser.create_instance` raising `ValueError` (no registered
implementation). -/
def mkParserCrash : String → Except PyExc Parser := fun _ => Except.error PyExc.other

/-- `MetadataExtractor.create_instance` raising `ValueError`. -/
def mkExtractorNone : String → Except PyExc ExtractorFun := fun _ => Except.error PyExc.other

/-- `MetadataExtractor.create_instance` producing the one-record extractor. -/
def mkExtractorOne : String → Except PyExc ExtractorFun := fun _ => Except.ok extOneRecord

/-- `true` when the fan-out task for `u` completed and yielded a record
list (`isinstance(m, list)` in the aggregation). -/
def taskYieldedList (fetch : String → FetchResult) (ext : ExtractorFun)
    (u : String) : Bool :=
  match extract_metadata fetch ext u with
  | .ok (some _) => true
  | _ => false

/-- `true` when the fan-out task for `u` absorbed a failure and yielded
`None`. -/
def taskYieldedNone (fetch : String → FetchResult) (ext : ExtractorFun)
    (u : String) : Bool :=
  match extract_metadata fetch ext u with
  | .ok none => true
  | _ => false

/-- `true` unless the fan-out task for `u` yielded a record list whose
length differs from one. -/
def taskOneRecord (fetch : String → FetchResult) (ext : ExtractorFun)
    (u : String) : Bool :=
  match extract_metadata fetch ext u with
  | .ok (some l) => l.length == 1
  | _ => true

lemma harvest_count (fetch : String → FetchResult) (ext : ExtractorFun) :
    ∀ urls : List String,
      (urls.map (extract_metadata fetch ext)).any exceptIsError = false →
      urls.all (taskOneRecord fetch ext) = true →
      (harvestRecords fetch ext urls).length =
          urls.countP (taskYieldedList fetch ext) ∧
        urls.countP (taskYieldedList fetch ext) +
          urls.countP (taskYieldedNone fetch ext) = urls.length := by
  intro urls
  induction urls with
  | nil => intro _ _; simp [harvestRecords]
  | cons u us ih =>
    intro hraise hone
    rw [List.map_cons, List.any_cons] at hraise
    rw [List.all_cons] at hone
    obtain ⟨h1, h2⟩ := Bool.or_eq_false_iff.mp hraise
    obtain ⟨ha, hb⟩ := Bool.and_eq_true_iff.mp hone
    obtain ⟨ihl, ihs⟩ := ih h2 hb
    cases hcase : extract_metadata fetch ext u with
    | error e =>
      rw [hcase] at h1
      simp [exceptIsError] at h1
    | ok o =>
      cases o with
      | none =>
        have hL : taskYieldedList fetch ext u = false := by
          simp [taskYieldedList, hcase]
        have hN : taskYieldedNone fetch ext u = true := by
          simp [taskYieldedNone, hcase]
        have hh : harvestRecords fetch ext (u :: us) = harvestRecords fetch ext us := by
          simp [harvestRecords, List.filterMap_cons, hcase]
        refine ⟨?_, ?_⟩
        · rw [hh, ihl]
          simp [List.countP_cons, hL]
        · simp only [List.countP_cons, hL, hN, List.length_cons]
          simp only [if_true, if_false, Bool.false_eq_true, ite_false, ite_true]
          omega
      | some l =>
        have hL : taskYieldedList fetch ext u = true := by
          simp [taskYieldedList, hcase]
        have hN : taskYieldedNone fetch ext u = false := by
          simp [taskYieldedNone, hcase]
        have hlen1 : l.length = 1 := by
          rw [taskOneRecord, hcase] at ha
          simpa using ha
        have hh : harvestRecords fetch ext (u :: us) =
            l ++ harvestRecords fetch ext us := by
          simp [harvestRecords, List.filterMap_cons, hcase]
        refine ⟨?_, ?_⟩
        · rw [hh, List.length_append, hlen1, ihl]
          simp [List.countP_cons, hL]
          omega
        · simp only [List.countP_cons, hL, hN, List.length_cons]
          simp only [if_true, if_false, Bool.false_eq_true, ite_false, ite_true]
          omega

/-! Claim theorems. -/

/-- Claim C1 as amended: a per-dataset fetch failing with
`HttpSessionResponseError` (realizable e.g. as an unreadable `file:` URL)
or `HttpSessionDecodeError`, or an extraction failing
(`MetadataParseError` absorbed by `get_metadata_or_log_error`), makes
the task yield zero records without raising past the task boundary;
when no task raises and every successful address yields exactly one
record, the report counts each yielding address in `validEntries`, each
failed address exactly once in `failedEntries`, with `skipped = false`.
(A fetch failing with `HttpSessionTechnicalError` — which, because the
session sets `raise_for_status=True`, includes every HTTP 4xx/5xx answer
and so also the claim's HTTP 404 example — is not absorbed: it raises
past the task boundary and skips the whole fan-out, see the
counterexample.) -/
theorem c1_absorbed_failure_kinds (fetch : String → FetchResult)
    (ext : ExtractorFun) :
    (∀ url, (fetch url = .exc .fetchResponse ∨ fetch url = .exc .fetchDecode) →
        extract_metadata fetch ext url = .ok none) ∧
    (∀ url content, fetch url = .ok content → ext content url = none →
        extract_metadata fetch ext url = .ok none) ∧
    (∀ urls : List String,
        (urls.map (extract_metadata fetch ext)).any exceptIsError = false →
        urls.all (taskOneRecord fetch ext) = true →
        extract_many_metadata fetch ext urls =
          (some (harvestRecords fetch ext urls),
           { valid_entries := urls.countP (taskYieldedList fetch ext),
             failed_entries := (urls.countP (taskYieldedNone fetch ext) : Int),
             skipped := false })) := by
  refine ⟨?_, ?_, ?_⟩
  · intro url h
    rcases h with h | h <;> simp [extract_metadata, h]
  · intro url content h1 h2
    simp [extract_metadata, h1, h2]
  · intro urls hraise hone
    obtain ⟨hlen, hsum⟩ := harvest_count fetch ext urls hraise hone
    have hm : extract_many_metadata fetch ext urls =
        (some (harvestRecords fetch ext urls),
         { valid_entries := (harvestRecords fetch ext urls).length,
           failed_entries := (urls.length : Int) -
             ((harvestRecords fetch ext urls).length : Int),
           skipped := false }) := by
      simp [extract_many_metadata, hraise]
    have hint : (urls.length : Int) -
        ((urls.countP (taskYieldedList fetch ext)) : Int) =
        (urls.countP (taskYieldedNone fetch ext) : Int) := by omega
    rw [hm, hlen, hint]

/-- Witness for C1 (amended): three file-scheme dataset addresses of
which `file:///data/u2` is unreadable (`HttpSessionResponseError` from
the file branch of `get_decoded_url`), the others yielding one record
each — the failing address is absorbed into a zero-record task and the
report is `{valid = 2, failed = 1, skipped = false}`. -/
theorem c1_absorbed_failure_kinds_witness :
    fetchFiles "file:///data/u2" = FetchResult.exc PyExc.fetchResponse ∧
    extract_metadata fetchFiles extOneRecord "file:///data/u2" = .ok none ∧
    extract_many_metadata fetchFiles extOneRecord
      ["file:///data/u1", "file:///data/u2", "file:///data/u3"] =
      (some [PyVal.dict "doc", PyVal.dict "doc"],
       { valid_entries := 2, failed_entries := 1, skipped := false }) := by
  refine ⟨by decide, ?_, ?_⟩
  · exact (c1_absorbed_failure_kinds fetchFiles extOneRecord).1 "file:///data/u2"
      (Or.inl (by decide))
  · have h := (c1_absorbed_failure_kinds fetchFiles extOneRecord).2.2
      ["file:///data/u1", "file:///data/u2", "file:///data/u3"] rfl rfl
    exact h.trans rfl

/-- Counterexample to C1 as stated, at the claim's own example: three
dataset addresses of which one returns HTTP 404. Because the session is
built with `raise_for_status=True`, the 404 surfaces as a raised
`ClientResponseError` and is classified `HttpSessionTechnicalError` —
one of the claim's "expected failure kinds" — which `_extract_metadata`
does not catch: the task raises past the task boundary, the address is
not counted in `failedEntries`, and the whole fan-out yields
`(None, {0, 0, skipped = true})` instead of the claimed
`{valid = 2, failed = 1, skipped = false}`. -/
theorem c1_counterexample :
    netOnly404 "http://h/u2" = NetEvent.respError 404 ∧
    fetch404World "http://h/u2" = FetchResult.exc PyExc.fetchTechnical ∧
    extract_many_metadata fetch404World extOneRecord
      ["http://h/u1", "http://h/u2", "http://h/u3"] =
      (none, { valid_entries := 0, failed_entries := 0, skipped := true }) := by
  refine ⟨rfl, by decide, rfl⟩

/-- Claim C5: for every set of dataset addresses, the fan-out step either
produces the skip report (both counts 0, skipped) or a report with
`skipped = false` whose `valid_entries + failed_entries` equals the number
of addresses. -/
theorem c5_report_counts_sum_to_addresses (fetch : String → FetchResult)
    (ext : ExtractorFun) (urls : List String) :
    (extract_many_metadata fetch ext urls).2 = SKIP_RDI_REPORT ∨
      ((extract_many_metadata fetch ext urls).2.skipped = false ∧
        ((extract_many_metadata fetch ext urls).2.valid_entries : Int) +
          (extract_many_metadata fetch ext urls).2.failed_entries =
          (urls.length : Int)) := by
  rw [extract_many_metadata]
  by_cases h : (urls.map (extract_metadata fetch ext)).any exceptIsError
  · simp [h]
  · simp only [h]
    right
    refine ⟨rfl, ?_⟩
    simp [List.length_map]

lemma network_scheme_never_response_error (net : String → NetEvent)
    (fileRead : String → Option (List Nat)) (decode : List Nat → Option String)
    (url : String) (hnet : raiseForStatusNet net)
    (hs : urlScheme url = "http" ∨ urlScheme url = "https") :
    isResponseErrorOutcome (get_decoded_url net fileRead decode url) = false := by
  simp only [get_decoded_url, if_pos hs]
  cases h : net url with
  | status code body =>
    have hlt := hnet url code body h
    have h5 : ¬ (500 ≤ code ∧ code < 600) := by omega
    have h4 : ¬ (400 ≤ code ∧ code < 500) := by omega
    simp only [if_neg h5, if_neg h4, decodeStep]
    cases decode body <;> rfl
  | respError c => rfl
  | netFail => rfl

/-- Claim C8 (code bug): the session is built with `raise_for_status=True`
(`HttpSession.__init__`), so `self.get` raises `ClientResponseError` — a
`ClientError` — for every status ≥ 400 before the explicit status checks
of `get_decoded_url` run: an HTTP 404 (like a 503) is classified
`HttpSessionTechnicalError`, not the `HttpSessionResponseError` that the
claim, the code's own comments ("treat 4xx as response error") and its
unit tests (`test_http_4xx_raises_response_error`) intend. On the mocked
world of those tests (`mockNet404`: a bare status-404 response object,
unrealizable on the real session, cf. `raiseForStatusNet` and
`network_scheme_never_response_error`) the otherwise dead branch does
yield `HttpSessionResponseError`. -/
theorem c8_raise_for_status_preempts_status_checks :
    get_decoded_url netRaise404 noFile decodeAll "http://example.com" =
      Except.error PyExc.fetchTechnical ∧
    get_decoded_url netAll503 noFile decodeAll "http://example.com" =
      Except.error PyExc.fetchTechnical ∧
    get_decoded_url mockNet404 noFile decodeAll "http://example.com" =
      Except.error PyExc.fetchResponse ∧
    (PyExc.fetchTechnical == PyExc.fetchResponse) = false := by
  exact ⟨rfl, rfl, rfl, by decide⟩

/-- Claim C9: both metadata-extractor kinds raise `MetadataParseError` on
empty content — the plain JSON-LD extractor by its explicit guard, the
embedded-JSON-LD extractor because the underlying `extruct` extraction
(oracle `extract`) raises on an empty document and that exception is
re-raised as `MetadataParseError`. -/
theorem c9_empty_content_is_parse_error (jsonLoads : String → Option PyVal)
    (extract : String → Except String (List PyVal)) (url msg : String)
    (hextr : extract "" = .error msg) :
    jsonldMetadata jsonLoads "" = .error .metadataParse ∧
    embeddedJsonldMetadata extract "" url = .error .metadataParse := by
  constructor
  · simp [jsonldMetadata]
  · simp [embeddedJsonldMetadata, hextr]

/-- Witness for C9 with the modelled `extruct` behaviour and a `json.loads`
that rejects the empty string. -/
theorem c9_empty_content_is_parse_error_witness :
    jsonldMetadata (fun _ => none) "" = .error .metadataParse ∧
    embeddedJsonldMetadata extructExtract "" "http://example.com" =
      .error .metadataParse :=
  c9_empty_content_is_parse_error (fun _ => none) extructExtract
    "http://example.com" "Document is empty" rfl

/-- Claim C10 as amended: the plugin registry is one dictionary shared
by every plugin family — `create_instance` resolves an identifier to the
same registered class from any family's base class, and a later
registration under the same identifier from any family replaces the
earlier one for all families; but `create_instance` only succeeds with a
fresh instance when the registered class's constructor needs no
argument — for a class whose `__init__` has a required parameter (every
`SitemapParser` subclass takes `content`), `implementation_class()`
raises `TypeError` on every family. -/
theorem c10_registry_shared_lookup_and_instantiation (reg : Registry)
    (identifier : String) (cls cls2 : PyClass) (famA famB : String) :
    create_instance famA (register_implementation cls identifier reg) identifier =
      create_instance famB (register_implementation cls identifier reg) identifier ∧
    (cls.needsCtorArg = false →
      create_instance famA (register_implementation cls identifier reg) identifier =
        Except.ok cls.name) ∧
    (cls.needsCtorArg = true →
      create_instance famA (register_implementation cls identifier reg) identifier =
        Except.error PyExc.other) ∧
    (cls2.needsCtorArg = false →
      create_instance famA
        (register_implementation cls2 identifier
          (register_implementation cls identifier reg)) identifier =
        Except.ok cls2.name) := by
  refine ⟨?_, ?_, ?_, ?_⟩
  · simp [create_instance, register_implementation, registryGet, List.find?]
  · intro h
    simp [create_instance, register_implementation, registryGet, List.find?, h]
  · intro h
    simp [create_instance, register_implementation, registryGet, List.find?, h]
  · intro h
    simp [create_instance, register_implementation, registryGet, List.find?, h]

/-- Witness for C10 (amended): an extractor class (zero-argument
constructor) registered under `jsonld` instantiates fine through the
sitemap family's base class, while the sitemap-parser class registered
under `xml` (constructor requires `content`) raises `TypeError` through
the extractor family's base class. -/
theorem c10_registry_shared_lookup_and_instantiation_witness :
    create_instance "SitemapParser"
      (register_implementation metadataExtractorJsonldClass "jsonld" []) "jsonld" =
      Except.ok "MetadataExtractorJsonld" ∧
    create_instance "MetadataExtractor"
      (register_implementation sitemapParserXmlClass "xml" []) "xml" =
      Except.error PyExc.other := by
  constructor
  · exact (c10_registry_shared_lookup_and_instantiation []
      "jsonld" metadataExtractorJsonldClass metadataExtractorJsonldClass
      "SitemapParser" "MetadataExtractor").2.1 rfl
  · exact (c10_registry_shared_lookup_and_instantiation []
      "xml" sitemapParserXmlClass sitemapParserXmlClass
      "MetadataExtractor" "SitemapParser").2.2.1 rfl

/-- Counterexample to C10 as stated, at the claim's own example: after
the sitemap family registers `SitemapParserXml` under `xml`,
`MetadataExtractor.create_instance("xml")` does find the class in the
shared dictionary, but it does not "succeed and return a fresh
instance": `SitemapParserXml.__init__(self, content)` requires `content`,
so `implementation_class()` raises `TypeError`. -/
theorem c10_counterexample :
    registryGet (register_implementation sitemapParserXmlClass "xml" []) "xml" =
      some sitemapParserXmlClass ∧
    sitemapParserXmlClass.needsCtorArg = true ∧
    create_instance "MetadataExtractor"
      (register_implementation sitemapParserXmlClass "xml" []) "xml" =
      Except.error PyExc.other :=
  ⟨rfl, rfl, rfl⟩

/-- Claim C6: when the index fetch at `config.url` fails with any fetch
failure kind, `scrape_repo` attempts nothing further (no parsing, no
per-dataset fetch — the instrumented trace is empty) and returns no
records together with the report `{0, 0, skipped = true}`. -/
theorem c6_index_fetch_failure_skips (fetch : String → FetchResult)
    (mkParser : String → Except PyExc Parser) (extractorId : Option String)
    (mkExtractor : String → Except PyExc ExtractorFun) (indexUrl : String)
    (e : PyExc) (hfail : fetch indexUrl = .exc e)
    (hkind : isHttpSessionFetchError e = true) :
    scrape_repoT fetch mkParser extractorId mkExtractor indexUrl =
      .ok (.pair none SKIP_RDI_REPORT, []) := by
  have hc : caughtByScrapeRepo e = true := by
    simp [caughtByScrapeRepo, hkind]
  simp [scrape_repoT, hfail, hc]

/-- Witness for C6: an index answered with HTTP 503 (classified
`HttpSessionTechnicalError` by `get_decoded_url`) yields the skip report
and an empty fan-out trace. -/
theorem c6_index_fetch_failure_skips_witness :
    fetchOfWorld netAll503 noFile decodeAll "http://repo.example/sitemap.xml" =
      .exc .fetchTechnical ∧
    scrape_repoT (fetchOfWorld netAll503 noFile decodeAll) mkParserPlain
      (some "jsonld") mkExtractorOne "http://repo.example/sitemap.xml" =
      .ok (.pair none SKIP_RDI_REPORT, []) := by
  refine ⟨by decide, ?_⟩
  exact c6_index_fetch_failure_skips (fetchOfWorld netAll503 noFile decodeAll)
    mkParserPlain (some "jsonld") mkExtractorOne "http://repo.example/sitemap.xml"
    .fetchTechnical (by decide) rfl

/-- Claim C2 as amended: when the index fetch and parser construction
succeed, the parser does not report `has_metadata` and the configuration
carries no metadata-extractor identifier, `scrape_repo` returns `None`
records together with `SKIP_RDI_REPORT`, i.e. `{0, 0, skipped = true}` —
so `skipped = true` is not reserved to index fetch/parse failures. -/
theorem c2_no_extractor_returns_skip_report (fetch : String → FetchResult)
    (mkParser : String → Except PyExc Parser)
    (mkExtractor : String → Except PyExc ExtractorFun)
    (indexUrl content : String) (parser : Parser)
    (h1 : fetch indexUrl = .ok content) (h2 : mkParser content = .ok parser)
    (h3 : parser.has_metadata = false) :
    scrape_repoT fetch mkParser none mkExtractor indexUrl =
      .ok (.pair none SKIP_RDI_REPORT, []) ∧
    SKIP_RDI_REPORT.skipped = true := by
  refine ⟨?_, rfl⟩
  simp [scrape_repoT, h1, h2, h3]

/-- Witness for C2 (amended) at a concrete successful index fetch with no
configured extractor. -/
theorem c2_no_extractor_returns_skip_report_witness :
    scrape_repoT fetchIdxOk mkParserPlain none mkExtractorNone "http://idx" =
      .ok (.pair none SKIP_RDI_REPORT, []) ∧
    SKIP_RDI_REPORT.skipped = true :=
  c2_no_extractor_returns_skip_report fetchIdxOk mkParserPlain mkExtractorNone
    "http://idx" "sitemapcontent" parserPlain rfl rfl rfl

/-- Counterexample to C2 as stated: a harvest whose index fetch and parse
succeed, whose parser has `has_metadata = false` and whose configuration
has no extractor identifier returns the report with `skipped = true` and
no record collection — not the claimed `{0, 0, skipped = false}` with an
empty record collection. -/
theorem c2_counterexample :
    fetchIdxOk "http://idx" = .ok "sitemapcontent" ∧
    mkParserPlain "sitemapcontent" = .ok parserPlain ∧
    parserPlain.has_metadata = false ∧
    scrape_repo fetchIdxOk mkParserPlain none mkExtractorNone "http://idx" =
      .ok (.pair none
        { valid_entries := 0, failed_entries := 0, skipped := true }) :=
  ⟨rfl, rfl, rfl, rfl⟩

/-- Claim C3 (code bug): in the `has_metadata` branch `scrape_repo`
returns `parser.metadata` bare — a plain record list instead of the
`(records, report)` pair promised by its own return-type annotation
`Tuple[Optional[List[Dict]], Dict]` and unpacked by its only caller
(`main.py`: `metadata, report = await scrape_repo(...)`). At a parser
carrying three records the return value is the bare three-record list
(which the caller's two-element tuple unpacking then breaks on), and it
does not have the pair shape; no per-dataset fetch occurs (empty trace). -/
theorem c3_has_metadata_branch_returns_bare_list :
    scrape_repoT fetchIdxOk mkParserMeta none mkExtractorNone "http://idx" =
      .ok (.bare [PyVal.dict "r1", PyVal.dict "r2", PyVal.dict "r3"], []) ∧
    isPairReturn (.bare [PyVal.dict "r1", PyVal.dict "r2", PyVal.dict "r3"]) =
      false :=
  ⟨rfl, rfl⟩

/-- Claim C4 as amended: in a non-skipped harvest `validEntries` is the
length of the flattened record list, while `failedEntries` is the integer
`numAddresses − validEntries` — a per-address failure count only when
every successful address yields exactly one record. -/
theorem c4_failed_entries_is_subtraction (fetch : String → FetchResult)
    (ext : ExtractorFun) (urls : List String)
    (hraise : (urls.map (extract_metadata fetch ext)).any exceptIsError = false) :
    extract_many_metadata fetch ext urls =
      (some (harvestRecords fetch ext urls),
       { valid_entries := (harvestRecords fetch ext urls).length,
         failed_entries :=
           (urls.length : Int) - ((harvestRecords fetch ext urls).length : Int),
         skipped := false }) := by
  simp [extract_many_metadata, hraise]

/-- Witness for C4 (amended) at a concrete two-address harvest where the
first address fails with `HttpSessionResponseError` (e.g. an unreadable
`file:` URL) and the second yields one record. -/
theorem c4_failed_entries_is_subtraction_witness :
    extract_many_metadata fetchRespOne extOneRecord ["u2", "u3"] =
      (some [PyVal.dict "content:u3"],
       { valid_entries := 1, failed_entries := 1, skipped := false }) := by
  have h := c4_failed_entries_is_subtraction fetchRespOne extOneRecord
    ["u2", "u3"] rfl
  exact h.trans rfl

/-- Counterexample to C4 as stated: one dataset address whose extraction
yields two records makes `failedEntries = 1 - 2 = -1`, a negative value —
so `failedEntries` is not the number of failed addresses (which is 0
here) and not a count at all. -/
theorem c4_counterexample :
    extract_many_metadata fetchAlwaysOk extTwoRecords ["u1"] =
      (some [PyVal.dict "u1", PyVal.dict "u1"],
       { valid_entries := 2, failed_entries := -1, skipped := false }) ∧
    ((-1 : Int) < 0) :=
  ⟨rfl, by decide⟩

/-- Claim C7 as amended: an exception outside the absorbed kinds raised
inside a single fan-out task is caught by the gather step and converted
into `(None, SKIP_RDI_REPORT)` for the whole repository (it does not
propagate); an exception outside the caught taxonomy raised outside the
fan-out (here: while constructing the sitemap parser) propagates to the
orchestrator's caller with no report produced. -/
theorem c7_unexpected_failures :
    (∀ (fetch : String → FetchResult) (ext : ExtractorFun) (urls : List String)
        (u : String) (e : PyExc), u ∈ urls →
        extract_metadata fetch ext u = Except.error e →
        extract_many_metadata fetch ext urls = (none, SKIP_RDI_REPORT)) ∧
    (∀ (fetch : String → FetchResult) (mkParser : String → Except PyExc Parser)
        (extractorId : Option String)
        (mkExtractor : String → Except PyExc ExtractorFun)
        (indexUrl content : String) (e : PyExc),
        fetch indexUrl = .ok content → mkParser content = .error e →
        caughtByScrapeRepo e = false →
        scrape_repoT fetch mkParser extractorId mkExtractor indexUrl =
          .error e) := by
  constructor
  · intro fetch ext urls u e hu herr
    have hany : (urls.map (extract_metadata fetch ext)).any exceptIsError = true := by
      rw [List.any_eq_true]
      exact ⟨extract_metadata fetch ext u, List.mem_map_of_mem _ hu,
        by simp [exceptIsError, herr]⟩
    simp [extract_many_metadata, hany]
  · intro fetch mkParser extractorId mkExtractor indexUrl content e h1 h2 h3
    simp [scrape_repoT, h1, h2, h3]

/-- Witness for C7 (amended): a task crash on `u2` is folded into the skip
report, and a `ValueError` from parser construction propagates. -/
theorem c7_unexpected_failures_witness :
    extract_many_metadata fetchCrashOne extOneRecord ["u1", "u2"] =
      (none, SKIP_RDI_REPORT) ∧
    scrape_repoT fetchIdxOk mkParserCrash none mkExtractorNone "http://idx" =
      Except.error PyExc.other := by
  constructor
  · exact c7_unexpected_failures.1 fetchCrashOne extOneRecord ["u1", "u2"]
      "u2" .other (by simp) rfl
  · exact c7_unexpected_failures.2 fetchIdxOk mkParserCrash none mkExtractorNone
      "http://idx" "sitemapcontent" .other rfl rfl rfl

/-- Counterexample to C7 as stated: a failure outside the declared
taxonomy raised inside a single fan-out task (address `u2`) does not
propagate to the orchestrator's caller — `scrape_repo` recovers it and
returns normally with the report `SKIP_RDI_REPORT` for that repository. -/
theorem c7_counterexample :
    fetchCrashOne "u2" = .exc .other ∧
    isHttpSessionFetchError .other = false ∧
    scrape_repoT fetchCrashOne mkParserTwoUrls (some "jsonld") mkExtractorOne
      "http://idx" = .ok (.pair none SKIP_RDI_REPORT, ["u1", "u2"]) :=
  ⟨rfl, rfl, rfl⟩

end Middleware
